import Mathlib

/-!
Verification of the publish-orchestration subsystem of AutoPublisherAI.

This file gives a shallow embedding, in Lean, of the Python code under
`services/publishing-service` and `services/orchestrator-service`:

* the publication data model (`app/models/publication.py`),
* the retry wrapper `BasePublisher.retry_publish` (`app/publishers/base.py`),
* the WordPress and Instagram publishers (`app/publishers/wordpress.py`,
  `app/publishers/instagram.py`),
* the bulk publish endpoint (`app/api/publish.py`),
* the workflow task `generate_and_publish` and its helpers
  (`orchestrator-service/app/tasks/workflow.py`),
* the status projection `get_workflow_status`
  (`orchestrator-service/app/api/workflow.py`).

Effectful pieces of the Python code (HTTP calls, raised exceptions, sleeps)
are embedded by explicit oracles and logs: a publisher's `publish` becomes a
function from the attempt number to an outcome (a returned response or a
raised exception), an HTTP transport becomes a function producing a reply,
and every definition additionally returns the list of transport calls it
issued and the sleeps it performed, so that "no network call" and "waits
d seconds" are provable statements.  Timestamps and free-form metadata
fields are threaded as opaque strings or omitted where no code path reads
them.
-/

namespace AutoPublisherAI

/-! ## Data model (`app/models/publication.py`) -/

/-- PlatformType enum from `app/models/publication.py`. -/
inductive PlatformType where
  | wordpress
  | instagram
  | facebook
  | x
  | linkedin
deriving DecidableEq

/-- The `.value` of the Python str-enum member. -/
def PlatformType.value : PlatformType → String
  | .wordpress => "wordpress"
  | .instagram => "instagram"
  | .facebook => "facebook"
  | .x => "x"
  | .linkedin => "linkedin"

/-- PublicationStatus enum from `app/models/publication.py`. -/
inductive PublicationStatus where
  | pending
  | publishing
  | published
  | failed
  | scheduled
deriving DecidableEq

/-- Python character slicing `s[:n]`: the first `n` characters of `s`. -/
def pySlice (s : String) (n : Nat) : String := String.mk (s.data.take n)

/-- WordPressPostData model.  The `status` field defaults to "publish" at
construction time in pydantic; here it is an explicit field. -/
structure WordPressPostData where
  title : String
  content : String
  excerpt : Option String
  status : String
  categories : List String
  tags : List String
  featured_image_url : Option String
  slug : Option String
  meta_description : Option String
deriving DecidableEq

/-- InstagramPostData model.  The pydantic field constraint
`caption: max_length=2200` is carried as a hypothesis where needed. -/
structure InstagramPostData where
  caption : String
  image_url : String
  location_id : Option String
  hashtags : List String
deriving DecidableEq

/-- The `full_caption` property of InstagramPostData:
caption, then (when hashtags is non-empty) a blank line and the
hash-prefixed hashtags joined by spaces, sliced to 2200 characters. -/
def InstagramPostData.full_caption (d : InstagramPostData) : String :=
  let caption :=
    if d.hashtags.isEmpty then d.caption
    else d.caption ++ "\n\n" ++
      String.intercalate " " (d.hashtags.map (fun tag => "#" ++ tag))
  pySlice caption 2200

/-- FacebookPostData model (registered in the data model, no publisher). -/
structure FacebookPostData where
  message : String
  link : Option String
  image_url : Option String
deriving DecidableEq

/-- XPostData model (registered in the data model, no publisher). -/
structure XPostData where
  text : String
  media_urls : List String
  reply_to : Option String
deriving DecidableEq

/-- PublicationRequest: the platform tag plus at most one per-platform
payload.  `schedule_time` and `metadata` are never read by the publishers
and are omitted. -/
structure PublicationRequest where
  platform : PlatformType
  wordpress_data : Option WordPressPostData
  instagram_data : Option InstagramPostData
  facebook_data : Option FacebookPostData
  x_data : Option XPostData
deriving DecidableEq

/-- PublicationResponse as produced by `BasePublisher._create_response`.
Timestamps and metadata are omitted (never read). -/
structure PublicationResponse where
  publication_id : String
  platform : PlatformType
  status : PublicationStatus
  platform_post_id : Option String
  platform_url : Option String
  error_message : Option String
  retry_count : Nat
deriving DecidableEq

/-- BasePublisher._create_response: standardized response construction
(`retry_count` keeps its pydantic default 0). -/
def createResponse (platform : PlatformType) (publication_id : String)
    (status : PublicationStatus) (platform_post_id platform_url error_message : Option String) :
    PublicationResponse :=
  { publication_id := publication_id
    platform := platform
    status := status
    platform_post_id := platform_post_id
    platform_url := platform_url
    error_message := error_message
    retry_count := 0 }

/-! ## Retry wrapper (`BasePublisher.retry_publish`, base.py lines 145-191)

One call of the wrapped `publish` either returns a response or raises an
exception; a publisher behaviour maps the 1-based attempt number to that
outcome.  `retry_publish` returns the final response together with the
number of `publish` invocations and the list of performed sleep durations,
in order. -/

/-- Outcome of one `publish` invocation: a returned response, or a raised
exception carrying `str(e)`. -/
inductive AttemptOutcome where
  | resp (r : PublicationResponse)
  | exn (msg : String)
deriving DecidableEq

/-- A publisher behaviour: outcome of the i-th publish invocation
(1-based attempt number). -/
def PublisherBehavior : Type := Nat → AttemptOutcome

/-- Observable result of one `retry_publish` run: response, number of
`publish` invocations, sleep durations in order. -/
structure RetryRun where
  response : PublicationResponse
  calls : Nat
  sleeps : List Nat
deriving DecidableEq

/-- Python `f"{last_error}"` where `last_error` is `None` or a string. -/
def optErrString : Option String → String
  | none => "None"
  | some s => s

/-- The error message synthesized after exhausting all attempts. -/
def retryFailureMessage (maxAttempts : Nat) (lastError : Option String) : String :=
  "Failed after " ++ toString maxAttempts ++ " attempts. Last error: " ++
    optErrString lastError

/-- The failed response synthesized after exhausting all attempts: its
publication_id names `request.platform`, while the response's platform
field carries the publisher's own `platform_type` (these coincide in
every dispatch path, where the factory selects the publisher by
`request.platform`). -/
def retryFailureResponse (platform requestPlatform : PlatformType) (maxAttempts : Nat)
    (lastError : Option String) : PublicationResponse :=
  createResponse platform ("failed_" ++ requestPlatform.value) .failed none none
    (some (retryFailureMessage maxAttempts lastError))

/-- The loop body of `retry_publish`: `attempt` is the current 1-based
attempt number, `remaining` the number of loop iterations left,
`lastError` the accumulated `last_error` variable.  A returned response
with status published is forwarded at once; a returned non-published
response falls through to the next attempt with no sleep (the sleep sits
in the `except` block); a raised exception records `last_error` and,
when `attempt < maxAttempts`, sleeps `delay * attempt` seconds. -/
def retryPublishGo (pub : PublisherBehavior) (platform requestPlatform : PlatformType)
    (maxAttempts delay : Nat) (lastError : Option String) (attempt : Nat) :
    Nat → RetryRun
  | 0 =>
    { response := retryFailureResponse platform requestPlatform maxAttempts lastError
      calls := 0
      sleeps := [] }
  | remaining + 1 =>
    match pub attempt with
    | .resp r =>
      if r.status = .published then
        { response := r, calls := 1, sleeps := [] }
      else
        let rest := retryPublishGo pub platform requestPlatform maxAttempts delay lastError (attempt + 1) remaining
        { response := rest.response, calls := rest.calls + 1, sleeps := rest.sleeps }
    | .exn msg =>
      let pause : List Nat := if attempt < maxAttempts then [delay * attempt] else []
      let rest := retryPublishGo pub platform requestPlatform maxAttempts delay (some msg) (attempt + 1) remaining
      { response := rest.response, calls := rest.calls + 1, sleeps := pause ++ rest.sleeps }

/-- BasePublisher.retry_publish (base.py lines 145-191).  Defaults in the
source are `max_attempts = 3`, `delay = 5`. -/
def retry_publish (pub : PublisherBehavior) (platform requestPlatform : PlatformType)
    (maxAttempts delay : Nat) : RetryRun :=
  retryPublishGo pub platform requestPlatform maxAttempts delay none 1 maxAttempts

/-- Whether the i-th publish invocation raises an exception. -/
def attemptRaises (pub : PublisherBehavior) (i : Nat) : Bool :=
  match pub i with
  | .exn _ => true
  | .resp _ => false

/-- Whether the i-th publish invocation returns a published response
(the success criterion of the retry loop). -/
def attemptPublished (pub : PublisherBehavior) (i : Nat) : Bool :=
  match pub i with
  | .resp r => decide (r.status = .published)
  | .exn _ => false

/-- Sleeps performed over attempts `start, ..., start+count-1`: the
attempts that raised, each contributing `delay * attempt`. -/
def exnSleeps (pub : PublisherBehavior) (delay start count : Nat) : List Nat :=
  ((List.range' start count).filter (fun i => attemptRaises pub i)).map
    (fun i => delay * i)

/-- The value of the `last_error` variable after processing attempts
`start, ..., start+count-1` beginning from `acc`. -/
def lastErrAcc (pub : PublisherBehavior) (acc : Option String) (start count : Nat) :
    Option String :=
  (List.range' start count).foldl
    (fun acc i =>
      match pub i with
      | .exn m => some m
      | .resp _ => acc) acc

theorem retryGo_success (pub : PublisherBehavior) (platform requestPlatform : PlatformType)
    (maxAttempts delay : Nat) (r : PublicationResponse) (hr : r.status = .published) :
    ∀ k attempt remaining lastError,
      k < remaining →
      attempt + k ≤ maxAttempts →
      (∀ i, attempt ≤ i → i < attempt + k → attemptPublished pub i = false) →
      pub (attempt + k) = .resp r →
      retryPublishGo pub platform requestPlatform maxAttempts delay lastError attempt remaining =
        { response := r, calls := k + 1, sleeps := exnSleeps pub delay attempt k } := by
  intro k
  induction k with
  | zero =>
    intro attempt remaining lastError hrem _ _ hsucc
    match remaining, hrem with
    | remaining + 1, _ =>
      simp only [Nat.add_zero] at hsucc
      simp [retryPublishGo, hsucc, hr, exnSleeps]
  | succ k ih =>
    intro attempt remaining lastError hrem hle hfail hsucc
    match remaining, hrem with
    | remaining + 1, hrem =>
      have hfa : attemptPublished pub attempt = false :=
        hfail attempt (Nat.le_refl _) (by omega)
      have hrec : ∀ lastError',
          retryPublishGo pub platform requestPlatform maxAttempts delay lastError' (attempt + 1) remaining =
            { response := r, calls := k + 1, sleeps := exnSleeps pub delay (attempt + 1) k } := by
        intro lastError'
        apply ih (attempt + 1) remaining lastError' (by omega) (by omega)
        · intro i h1 h2
          exact hfail i (by omega) (by omega)
        · have : attempt + 1 + k = attempt + (k + 1) := by omega
          rw [this]
          exact hsucc
      unfold attemptPublished at hfa
      unfold retryPublishGo
      cases hpa : pub attempt with
      | resp r0 =>
        rw [hpa] at hfa
        simp only [decide_eq_false_iff_not] at hfa
        simp only [hfa, if_false]
        rw [hrec lastError]
        have hsl : exnSleeps pub delay attempt (k + 1) = exnSleeps pub delay (attempt + 1) k := by
          unfold exnSleeps
          rw [List.range'_succ]
          simp [List.filter_cons, attemptRaises, hpa]
        simp [hsl]
      | exn msg =>
        have hlt : attempt < maxAttempts := by omega
        simp only [hlt, if_true]
        rw [hrec (some msg)]
        have hsl : exnSleeps pub delay attempt (k + 1) =
            delay * attempt :: exnSleeps pub delay (attempt + 1) k := by
          unfold exnSleeps
          rw [List.range'_succ]
          simp [List.filter_cons, attemptRaises, hpa]
        simp [hsl]

theorem retryGo_allFail (pub : PublisherBehavior) (platform requestPlatform : PlatformType)
    (maxAttempts delay : Nat) :
    ∀ remaining attempt lastError,
      (∀ i, attempt ≤ i → i < attempt + remaining → attemptPublished pub i = false) →
      (retryPublishGo pub platform requestPlatform maxAttempts delay lastError attempt remaining).response =
        retryFailureResponse platform requestPlatform maxAttempts
          (lastErrAcc pub lastError attempt remaining) ∧
      (retryPublishGo pub platform requestPlatform maxAttempts delay lastError attempt remaining).calls =
        remaining := by
  intro remaining
  induction remaining with
  | zero =>
    intro attempt lastError _
    simp [retryPublishGo, lastErrAcc]
  | succ remaining ih =>
    intro attempt lastError hfail
    have hfa : attemptPublished pub attempt = false :=
      hfail attempt (Nat.le_refl _) (by omega)
    have hfail' : ∀ i, attempt + 1 ≤ i → i < attempt + 1 + remaining →
        attemptPublished pub i = false := by
      intro i h1 h2
      exact hfail i (by omega) (by omega)
    unfold attemptPublished at hfa
    unfold retryPublishGo
    cases hpa : pub attempt with
    | resp r0 =>
      rw [hpa] at hfa
      simp only [decide_eq_false_iff_not] at hfa
      simp only [hfa, if_false]
      have := ih (attempt + 1) lastError hfail'
      have hacc : lastErrAcc pub lastError attempt (remaining + 1) =
          lastErrAcc pub lastError (attempt + 1) remaining := by
        unfold lastErrAcc
        rw [List.range'_succ]
        simp [hpa]
      rw [hacc]
      exact ⟨this.1, by simp [this.2]⟩
    | exn msg =>
      have := ih (attempt + 1) (some msg) hfail'
      have hacc : lastErrAcc pub lastError attempt (remaining + 1) =
          lastErrAcc pub (some msg) (attempt + 1) remaining := by
        unfold lastErrAcc
        rw [List.range'_succ]
        simp [hpa]
      rw [hacc]
      exact ⟨this.1, by simp [this.2]⟩

/-! ## Concrete publisher behaviours used as counterexamples and witnesses -/

/-- A publisher whose first attempt returns a non-published (failed)
response — no exception raised — and whose second attempt succeeds. -/
def pubRespFailThenOk : PublisherBehavior := fun i =>
  if i = 1 then
    .resp (createResponse .wordpress "p1" .failed none none (some "remote rejected"))
  else
    .resp (createResponse .wordpress "p2" .published (some "42")
      (some "https://example.com/42") none)

/-- A publisher that raises on attempt 1, returns a failed response on
attempt 2 and succeeds on attempt 3. -/
def pubMixedFailures : PublisherBehavior := fun i =>
  if i = 1 then .exn "timeout"
  else if i = 2 then
    .resp (createResponse .instagram "q2" .failed none none (some "bad status"))
  else
    .resp (createResponse .instagram "q3" .published (some "m9") none none)

/-- A publisher that raises on every attempt. -/
def pubAlwaysRaises : PublisherBehavior := fun _ => .exn "connection reset"

/-- C1, counterexample.  With `max_attempts = 3`, `delay = 5` and a
publisher whose attempt 1 fails by a returned non-published response and
whose attempt 2 succeeds (N = 1), the claim predicts a sleep of
`delay * 1 = 5` seconds before attempt 2; the code performs no sleep at
all, because the backoff sleep sits in the `except` branch only and a
returned non-published response raises nothing. -/
theorem C1_counterexample :
    (retry_publish pubRespFailThenOk .wordpress .wordpress 3 5).response.status = .published ∧
    (retry_publish pubRespFailThenOk .wordpress .wordpress 3 5).calls = 2 ∧
    (retry_publish pubRespFailThenOk .wordpress .wordpress 3 5).sleeps = [] ∧
    (retry_publish pubRespFailThenOk .wordpress .wordpress 3 5).sleeps ≠ [5 * 1] := by
  refine ⟨rfl, rfl, rfl, ?_⟩
  decide

/-- C1, amended.  For a publisher whose attempts `1..N` all fail
(by raised exception or by returned non-published response) and whose
attempt `N+1` returns a published response, with `N < max_attempts`,
`retry_publish` returns that successful response after exactly `N+1`
publish invocations and sleeps `delay * attempt_number` seconds after
exactly the failed attempts that raised an exception, in attempt order;
an attempt that failed by a returned non-published response is followed
immediately by the next attempt with no wait, and no wait follows the
final (successful) attempt. -/
theorem C1_retry_returns_first_success_with_backoff_on_raised_failures
    (pub : PublisherBehavior) (platform requestPlatform : PlatformType)
    (maxAttempts delay N : Nat) (r : PublicationResponse)
    (hN : N < maxAttempts)
    (hfail : ∀ i, i < N → attemptPublished pub (i + 1) = false)
    (hsucc : pub (N + 1) = .resp r)
    (hpub : r.status = .published) :
    retry_publish pub platform requestPlatform maxAttempts delay =
      { response := r, calls := N + 1, sleeps := exnSleeps pub delay 1 N } := by
  unfold retry_publish
  apply retryGo_success pub platform requestPlatform maxAttempts delay r hpub N 1 maxAttempts none hN
    (by omega)
  · intro i h1 h2
    have := hfail (i - 1) (by omega)
    have hi : i - 1 + 1 = i := by omega
    rwa [hi] at this
  · have : 1 + N = N + 1 := by omega
    rw [this]
    exact hsucc

/-- Witness for C1: `pubMixedFailures` fails twice (exception, then
non-published response) and succeeds on attempt 3; with
`max_attempts = 4`, `delay = 7` the run makes 3 calls and sleeps only
once, 7 seconds, after the raised attempt 1. -/
theorem C1_witness :
    (∀ i, i < 2 → attemptPublished pubMixedFailures (i + 1) = false) ∧
    retry_publish pubMixedFailures .instagram .instagram 4 7 =
      { response := createResponse .instagram "q3" .published (some "m9") none none
        calls := 3
        sleeps := [7] } := by
  refine ⟨by decide, ?_⟩
  have h := C1_retry_returns_first_success_with_backoff_on_raised_failures
    pubMixedFailures .instagram .instagram 4 7 2
    (createResponse .instagram "q3" .published (some "m9") none none)
    (by omega) (by decide) rfl rfl
  rw [h]
  decide

/-- C2.  For a publisher none of whose first `max_attempts` attempts
yields a published response, `retry_publish` invokes `publish` exactly
`max_attempts` times and returns a failed response whose error message
embeds the attempt count and the final value of the `last_error`
variable (the message of the last attempt that raised, or None). -/
theorem C2_retry_exhaustion_returns_failed
    (pub : PublisherBehavior) (platform requestPlatform : PlatformType) (maxAttempts delay : Nat)
    (hfail : ∀ i, i < maxAttempts → attemptPublished pub (i + 1) = false) :
    (retry_publish pub platform requestPlatform maxAttempts delay).calls = maxAttempts ∧
    (retry_publish pub platform requestPlatform maxAttempts delay).response.status = .failed ∧
    (retry_publish pub platform requestPlatform maxAttempts delay).response.error_message =
      some ("Failed after " ++ toString maxAttempts ++ " attempts. Last error: " ++
        optErrString (lastErrAcc pub none 1 maxAttempts)) := by
  have h := retryGo_allFail pub platform requestPlatform maxAttempts delay maxAttempts 1 none
    (by
      intro i h1 h2
      have := hfail (i - 1) (by omega)
      have hi : i - 1 + 1 = i := by omega
      rwa [hi] at this)
  unfold retry_publish
  refine ⟨h.2, ?_, ?_⟩ <;>
    rw [h.1] <;>
    rfl

/-- Witness for C2: a publisher raising "connection reset" on every
attempt, with the default `max_attempts = 3`, `delay = 5`, is invoked
exactly 3 times and yields the failed response embedding the count and
the last error. -/
theorem C2_witness :
    (∀ i, i < 3 → attemptPublished pubAlwaysRaises (i + 1) = false) ∧
    (retry_publish pubAlwaysRaises .wordpress .wordpress 3 5).calls = 3 ∧
    (retry_publish pubAlwaysRaises .wordpress .wordpress 3 5).response.status = .failed ∧
    (retry_publish pubAlwaysRaises .wordpress .wordpress 3 5).response.error_message =
      some "Failed after 3 attempts. Last error: connection reset" := by
  refine ⟨by decide, ?_⟩
  have h := C2_retry_exhaustion_returns_failed pubAlwaysRaises .wordpress .wordpress 3 5 (by decide)
  refine ⟨h.1, h.2.1, ?_⟩
  rw [h.2.2]
  rfl

/-! ## Instagram full_caption (claim C7) -/

theorem pySlice_length (s : String) (n : Nat) : (pySlice s n).length ≤ n := by
  unfold pySlice
  show (s.data.take n).length ≤ n
  rw [List.length_take]
  omega

theorem pySlice_of_length_le (s : String) (n : Nat) (h : s.length ≤ n) :
    pySlice s n = s := by
  unfold pySlice
  have : s.data.take n = s.data := List.take_of_length_le h
  rw [this]

/-- C7.  For every InstagramPostData whose caption respects the pydantic
bound `max_length=2200`: `full_caption` equals the caption when the
hashtag list is empty; otherwise it is the caption, a blank line, and the
hash-prefixed hashtags joined by spaces, sliced to 2200 characters; and
in every case the result has at most 2200 characters. -/
theorem C7_full_caption_truncated
    (d : InstagramPostData) (hlen : d.caption.length ≤ 2200) :
    (d.hashtags = [] → d.full_caption = d.caption) ∧
    (d.hashtags ≠ [] →
      d.full_caption =
        pySlice (d.caption ++ "\n\n" ++
          String.intercalate " " (d.hashtags.map (fun tag => "#" ++ tag))) 2200) ∧
    d.full_caption.length ≤ 2200 := by
  refine ⟨?_, ?_, ?_⟩
  · intro h
    unfold InstagramPostData.full_caption
    simp only [h, List.isEmpty_nil, if_true]
    exact pySlice_of_length_le _ _ hlen
  · intro h
    unfold InstagramPostData.full_caption
    have : d.hashtags.isEmpty = false := by
      cases hh : d.hashtags with
      | nil => exact absurd hh h
      | cons a l => rfl
    simp [this]
  · unfold InstagramPostData.full_caption
    exact pySlice_length _ _

/-- Witness for C7 at a concrete post: caption "hello world" with
hashtags ["ai", "tech"]. -/
theorem C7_witness :
    (InstagramPostData.mk "hello world" "https://img.example/x.jpg" none
        ["ai", "tech"]).caption.length ≤ 2200 ∧
    (InstagramPostData.mk "hello world" "https://img.example/x.jpg" none
        ["ai", "tech"]).full_caption = "hello world\n\n#ai #tech" := by
  refine ⟨by decide, ?_⟩
  have h := C7_full_caption_truncated
    (InstagramPostData.mk "hello world" "https://img.example/x.jpg" none ["ai", "tech"])
    (by decide)
  have h2 := h.2.1 (by decide)
  rw [h2]
  decide

/-! ## Workflow task (`orchestrator-service/app/tasks/workflow.py`)

The generated-content payload is the JSON dictionary returned by the
content service; fields that the orchestrator reads with `.get` and may
find absent are Options, fields read with a list default are lists. -/

/-- One section of the generated article. -/
structure ContentSection where
  heading : String
  content : String
  heading_level : Nat
deriving DecidableEq

/-- One FAQ entry of the generated article. -/
structure FaqItem where
  question : String
  answer : String
deriving DecidableEq

/-- The `metadata` sub-dictionary of the generated content. -/
structure ContentMeta where
  slug : Option String
  meta_description : Option String
deriving DecidableEq

/-- The `featured_image` sub-dictionary of the generated content. -/
structure FeaturedImage where
  url : Option String
deriving DecidableEq

/-- The generated-content dictionary, as read by the workflow task and
the status projection. -/
structure Content where
  title : Option String
  introduction : Option String
  sections : List ContentSection
  conclusion : Option String
  faq : List FaqItem
  metadata : Option ContentMeta
  featured_image : Option FeaturedImage
  word_count : Option Nat
deriving DecidableEq

/-- Python truthiness of an optional string (`if content.get(k):`). -/
def pyTruthyStr : Option String → Bool
  | none => false
  | some s => !s.isEmpty

/-- The HTML fragments contributed by one section in `_convert_to_html`:
a heading tag, then one paragraph per non-blank chunk of the section
content split on blank lines. -/
def sectionHtml (sec : ContentSection) : List String :=
  ("<h" ++ toString sec.heading_level ++ ">" ++ sec.heading ++ "</h" ++
      toString sec.heading_level ++ ">") ::
    ((sec.content.splitOn "\n\n").filterMap
      (fun para => if para.trim = "" then none else some ("<p>" ++ para.trim ++ "</p>")))

/-- The function `_convert_to_html` of workflow.py: introduction
paragraph, section fragments, FAQ block, conclusion paragraph, joined by
newlines. -/
def convert_to_html (content : Content) : String :=
  let introPart :=
    if pyTruthyStr content.introduction then
      ["<p>" ++ content.introduction.getD "" ++ "</p>"]
    else []
  let sectionParts := (content.sections.map sectionHtml).flatten
  let faqParts :=
    if content.faq.isEmpty then []
    else "<h2>الأسئلة الشائعة</h2>" ::
      (content.faq.map (fun item =>
        ["<h3>" ++ item.question ++ "</h3>", "<p>" ++ item.answer ++ "</p>"])).flatten
  let conclusionPart :=
    if pyTruthyStr content.conclusion then
      ["<p>" ++ content.conclusion.getD "" ++ "</p>"]
    else []
  String.intercalate "\n" (introPart ++ sectionParts ++ faqParts ++ conclusionPart)

/-- The function `_create_instagram_caption` of workflow.py: title,
blank line, introduction; sliced to 1797 characters plus "..." when
longer than 1800. -/
def create_instagram_caption (content : Content) : String :=
  let caption := content.title.getD "" ++ "\n\n" ++ content.introduction.getD ""
  if caption.length > 1800 then pySlice caption 1797 ++ "..." else caption

/-- A publishing target dictionary, as produced by
`PublishingTarget.model_dump()`: every key present, unset fields None. -/
structure Target where
  platform : String
  post_status : Option String
  categories : Option (List String)
  tags : Option (List String)
  hashtags : Option (List String)
  location_id : Option String
  schedule_time : Option String
deriving DecidableEq

/-- The `wordpress_data` payload built by `publish_content_sync`.
Because the target dictionary always carries every key, the
`target.get(k, default)` calls return the stored value (possibly None),
never the default. -/
structure WpPayload where
  title : String
  content : String
  status : Option String
  categories : Option (List String)
  tags : Option (List String)
  featured_image_url : Option String
  slug : Option String
  meta_description : Option String
deriving DecidableEq

/-- The `instagram_data` payload built by `publish_content_sync`. -/
structure IgPayload where
  caption : String
  image_url : String
  hashtags : Option (List String)
  location_id : Option String
deriving DecidableEq

/-- The request body posted to the publishing service. -/
structure PublishData where
  platform : String
  wordpress_data : Option WpPayload
  instagram_data : Option IgPayload
  schedule_time : Option String
deriving DecidableEq

/-- A reply of an HTTP POST as observed by `publish_content_sync`:
a JSON body on success, an error status (raise_for_status fires), or a
raised transport exception. -/
inductive HttpResult (α : Type) where
  | ok (body : α)
  | statusError (code : Nat) (text : String)
  | exn (msg : String)
deriving DecidableEq

/-- The JSON body returned by the publishing service, as read by
`publish_content_sync` via `.get`. -/
structure PublishServiceBody where
  status : Option String
  platform_post_id : Option String
  platform_url : Option String
  error_message : Option String
deriving DecidableEq

/-- One per-target outcome record appended to `publishing_results`
(the WorkflowResult model of the orchestrator; the unsupported-platform
branch builds it without post_id/post_url keys, read back as None). -/
structure PublishRecord where
  platform : String
  success : Bool
  post_id : Option String
  post_url : Option String
  error_message : Option String
deriving DecidableEq

/-- The payload-construction half of `publish_content_sync`: none for an
unsupported platform (neither wordpress nor instagram). -/
def buildPublishData (content : Content) (target : Target) : Option PublishData :=
  if target.platform = "wordpress" then
    some
      { platform := "wordpress"
        wordpress_data := some
          { title := content.title.getD ""
            content := convert_to_html content
            status := target.post_status
            categories := target.categories
            tags := target.tags
            featured_image_url := content.featured_image.bind (fun f => f.url)
            slug := content.metadata.bind (fun m => m.slug)
            meta_description := content.metadata.bind (fun m => m.meta_description) }
        instagram_data := none
        schedule_time := if pyTruthyStr target.schedule_time then target.schedule_time else none }
  else if target.platform = "instagram" then
    some
      { platform := "instagram"
        wordpress_data := none
        instagram_data := some
          { caption := create_instagram_caption content
            image_url := (content.featured_image.bind (fun f => f.url)).getD ""
            hashtags := target.hashtags
            location_id := target.location_id }
        schedule_time := if pyTruthyStr target.schedule_time then target.schedule_time else none }
  else none

/-- The function `publish_content_sync` of workflow.py (lines 163-244).
`http` is the transport: the reply to posting a body to the publishing
service.  Returns the outcome record together with the number of
transport invocations performed.  For an unsupported platform the
early-return branch produces a failure record and performs no call. -/
def publish_content_sync (content : Content) (target : Target)
    (http : PublishData → HttpResult PublishServiceBody) : PublishRecord × Nat :=
  match buildPublishData content target with
  | none =>
    ({ platform := target.platform
       success := false
       post_id := none
       post_url := none
       error_message := some ("Unsupported platform: " ++ target.platform) }, 0)
  | some payload =>
    match http payload with
    | .ok result =>
      ({ platform := target.platform
         success := decide (result.status = some "published")
         post_id := result.platform_post_id
         post_url := result.platform_url
         error_message := result.error_message }, 1)
    | .statusError code text =>
      ({ platform := target.platform
         success := false
         post_id := none
         post_url := none
         error_message := some ("HTTP " ++ toString code ++ ": " ++ text) }, 1)
    | .exn msg =>
      ({ platform := target.platform
         success := false
         post_id := none
         post_url := none
         error_message := some msg }, 1)

/-- Outcome of the content-generation collaborator call
(`generate_content_sync`): a content dictionary, a dictionary carrying
an error key, or a falsy (empty) result. -/
inductive ContentResult where
  | ok (c : Content)
  | error (msg : String)
  | empty
deriving DecidableEq

/-- Python `content_result.get('error', 'Unknown error')`. -/
def collaboratorError : ContentResult → String
  | .error msg => msg
  | .empty => "Unknown error"
  | .ok _ => "Unknown error"

/-- The workflow request dictionary handed to the task (content_params
is consumed only by the collaborator and stays opaque). -/
structure WorkflowData where
  publishing_targets : List Target
  auto_publish : Bool
deriving DecidableEq

/-- One progress update emitted via `update_state` (PROGRESS meta). -/
structure ProgressMeta where
  progress : Nat
  step : String
deriving DecidableEq

/-- The terminal dictionary returned by the workflow task: the
`completed` shape carries content, publishing results and a completion
timestamp; the `failed` shape carries only the error message. -/
inductive TaskResult where
  | completed (workflow_id : String) (content : Content)
      (publishing_results : List PublishRecord) (completed_at : String)
  | failed (workflow_id : String) (error_message : String)
deriving DecidableEq

/-- The dictionary's `status` tag. -/
def TaskResult.statusTag : TaskResult → String
  | .completed _ _ _ _ => "completed"
  | .failed _ _ => "failed"

/-- Python `result.get('content', {}).get('title')`. -/
def TaskResult.contentTitle : TaskResult → Option String
  | .completed _ c _ _ => c.title
  | .failed _ _ => none

/-- Python `result.get('content', {}).get('word_count')`. -/
def TaskResult.contentWordCount : TaskResult → Option Nat
  | .completed _ c _ _ => c.word_count
  | .failed _ _ => none

/-- Python `result.get('publishing_results', [])`: the failed shape has
no such key, so the projection reads an empty list. -/
def TaskResult.publishingResults : TaskResult → List PublishRecord
  | .completed _ _ rs _ => rs
  | .failed _ _ => []

/-- Python `result.get('completed_at')`. -/
def TaskResult.completedAt : TaskResult → Option String
  | .completed _ _ _ t => some t
  | .failed _ _ => none

/-- Observable run of one workflow task: its returned dictionary, the
progress updates it emitted in order, and the number of
`publish_content_sync` invocations it made. -/
structure TaskRun where
  result : TaskResult
  progressEvents : List ProgressMeta
  publishCalls : Nat
deriving DecidableEq

/-- The publishing loop of `generate_and_publish` (lines 64-77): one
record appended per target, in order; `publish_content_sync` catches its
own exceptions and every target dictionary carries a platform key, so
the per-iteration except branch is never taken.  `http i` is the
transport observed by the i-th target's call. -/
def publishLoop (content : Content)
    (http : Nat → PublishData → HttpResult PublishServiceBody) :
    List Target → Nat → List PublishRecord
  | [], _ => []
  | t :: rest, idx =>
    (publish_content_sync content t (http idx)).1 :: publishLoop content http rest (idx + 1)

/-- The Celery task `generate_and_publish` (workflow.py lines 19-103).
`gen` is the collaborator's outcome; `http i` the transport seen by the
i-th target; `now` the completion timestamp.  A collaborator error or
empty result raises, the task-level except converts the exception into
the failed dictionary; otherwise the publishing loop runs when
`auto_publish` is set and the completed dictionary is returned. -/
def generate_and_publish (workflow_id : String) (wd : WorkflowData)
    (gen : ContentResult) (http : Nat → PublishData → HttpResult PublishServiceBody)
    (now : String) : TaskRun :=
  let startEvents : List ProgressMeta :=
    [{ progress := 10, step := "Initializing workflow" },
     { progress := 20, step := "Generating content" }]
  match gen with
  | .ok c =>
    if wd.auto_publish then
      { result := .completed workflow_id c
          (publishLoop c http wd.publishing_targets 0) now
        progressEvents := startEvents ++
          [{ progress := 60, step := "Publishing content" },
           { progress := 100, step := "Workflow completed" }]
        publishCalls := wd.publishing_targets.length }
    else
      { result := .completed workflow_id c [] now
        progressEvents := startEvents ++
          [{ progress := 100, step := "Workflow completed" }]
        publishCalls := 0 }
  | .error msg =>
    { result := .failed workflow_id ("Content generation failed: " ++ msg)
      progressEvents := startEvents
      publishCalls := 0 }
  | .empty =>
    { result := .failed workflow_id ("Content generation failed: Unknown error")
      progressEvents := startEvents
      publishCalls := 0 }

/-! ## Status projection (`orchestrator-service/app/api/workflow.py`) -/

/-- WorkflowStatus enum of the orchestrator's workflow models. -/
inductive WorkflowStatus where
  | pending
  | generating_content
  | content_generated
  | publishing
  | published
  | failed
  | cancelled
deriving DecidableEq

/-- WorkflowResponse model (timestamps other than completed_at and the
metadata map omitted; unset fields keep their pydantic defaults). -/
structure WorkflowResponse where
  workflow_id : String
  status : WorkflowStatus
  content_generated : Bool
  article_title : Option String
  word_count : Option Nat
  publishing_results : List PublishRecord
  progress_percentage : Nat
  current_step : Option String
  error_message : Option String
  completed_at : Option String
deriving DecidableEq

/-- The task-queue backend's native state for one workflow task, as
inspected by the status endpoint: PENDING, PROGRESS with its meta
payload, SUCCESS with the returned dictionary, FAILURE with the
stringified cause, or any other state name. -/
inductive CeleryState where
  | pending
  | progress (meta : ProgressMeta)
  | success (result : TaskResult)
  | failure (info : Option String)
  | other (name : String)
deriving DecidableEq

/-- The endpoint `get_workflow_status` (api/workflow.py lines 96-168).
The SUCCESS branch rebuilds each publishing-results entry field by field
with `.get` defaults, which is the identity on records produced by the
task; the projected status there is always `published` and the progress
always 100, whatever the individual outcomes. -/
def get_workflow_status (workflow_id : String) (st : CeleryState) : WorkflowResponse :=
  match st with
  | .pending =>
    { workflow_id := workflow_id
      status := .pending
      content_generated := false
      article_title := none
      word_count := none
      publishing_results := []
      progress_percentage := 0
      current_step := some "Waiting to start"
      error_message := none
      completed_at := none }
  | .progress meta =>
    { workflow_id := workflow_id
      status := .generating_content
      content_generated := false
      article_title := none
      word_count := none
      publishing_results := []
      progress_percentage := meta.progress
      current_step := some meta.step
      error_message := none
      completed_at := none }
  | .success result =>
    { workflow_id := workflow_id
      status := .published
      content_generated := true
      article_title := result.contentTitle
      word_count := result.contentWordCount
      publishing_results := result.publishingResults
      progress_percentage := 100
      current_step := some "Completed"
      error_message := none
      completed_at := result.completedAt }
  | .failure info =>
    { workflow_id := workflow_id
      status := .failed
      content_generated := false
      article_title := none
      word_count := none
      publishing_results := []
      progress_percentage := 0
      current_step := none
      error_message := some (if pyTruthyStr info then info.getD "" else "Unknown error")
      completed_at := none }
  | .other name =>
    { workflow_id := workflow_id
      status := .pending
      content_generated := false
      article_title := none
      word_count := none
      publishing_results := []
      progress_percentage := 0
      current_step := some ("State: " ++ name)
      error_message := none
      completed_at := none }

/-- Terminal statuses of the externally observable enumeration. -/
def isTerminal : WorkflowStatus → Bool
  | .published => true
  | .failed => true
  | .cancelled => true
  | _ => false

/-- The sequence of backend states one normally executing workflow task
passes through: queued (PENDING), then each emitted PROGRESS update in
order, then SUCCESS with the returned dictionary (the task converts its
own exceptions into a returned failed dictionary, so a normal run never
reaches the backend FAILURE state). -/
def workflowTrace (workflow_id : String) (wd : WorkflowData) (gen : ContentResult)
    (http : Nat → PublishData → HttpResult PublishServiceBody) (now : String) :
    List CeleryState :=
  CeleryState.pending ::
    ((generate_and_publish workflow_id wd gen http now).progressEvents.map
        CeleryState.progress ++
      [CeleryState.success (generate_and_publish workflow_id wd gen http now).result])

/-! ## Claims about the workflow task and the status projection -/

theorem publishLoop_length (content : Content)
    (http : Nat → PublishData → HttpResult PublishServiceBody) :
    ∀ ts idx, (publishLoop content http ts idx).length = ts.length := by
  intro ts
  induction ts with
  | nil => intro idx; rfl
  | cons t rest ih =>
    intro idx
    simp [publishLoop, ih]

theorem publishLoop_get (content : Content)
    (http : Nat → PublishData → HttpResult PublishServiceBody) :
    ∀ ts idx i, i < ts.length →
      (publishLoop content http ts idx).get? i =
        (ts.get? i).map (fun t => (publish_content_sync content t (http (idx + i))).1) := by
  intro ts
  induction ts with
  | nil => intro idx i h; simp at h
  | cons t rest ih =>
    intro idx i h
    cases i with
    | zero => simp [publishLoop]
    | succ i =>
      have := ih (idx + 1) i (by simpa using Nat.lt_of_succ_lt_succ h)
      simp only [publishLoop, List.get?_cons_succ, this]
      have harith : idx + 1 + i = idx + (i + 1) := by omega
      rw [harith]

/-- C4.  For a workflow run whose content generation succeeded and whose
auto_publish flag is set, the publishing loop produces exactly one
outcome record per target, in the order supplied, and the i-th record is
the outcome of the i-th target's own publish call (with its own
transport), so no target's failure aborts or skips a later target. -/
theorem C4_one_record_per_target_in_order
    (workflow_id : String) (wd : WorkflowData) (c : Content)
    (http : Nat → PublishData → HttpResult PublishServiceBody) (now : String)
    (hauto : wd.auto_publish = true) :
    (generate_and_publish workflow_id wd (.ok c) http now).result.publishingResults.length =
      wd.publishing_targets.length ∧
    ∀ i, i < wd.publishing_targets.length →
      (generate_and_publish workflow_id wd (.ok c) http now).result.publishingResults.get? i =
        (wd.publishing_targets.get? i).map
          (fun t => (publish_content_sync c t (http i)).1) := by
  unfold generate_and_publish
  simp only [hauto, if_true]
  constructor
  · simp [TaskResult.publishingResults, publishLoop_length]
  · intro i h
    simp only [TaskResult.publishingResults]
    have := publishLoop_get c http wd.publishing_targets 0 i h
    simpa using this

/-- Sample generated content used by concrete workflow scenarios. -/
def sampleContent : Content :=
  { title := some "T"
    introduction := some "Intro paragraph"
    sections := []
    conclusion := none
    faq := []
    metadata := none
    featured_image := none
    word_count := some 500 }

/-- A transport whose reply is a published response. -/
def httpOkPublished : PublishData → HttpResult PublishServiceBody := fun _ =>
  .ok { status := some "published"
        platform_post_id := some "7"
        platform_url := some "https://site.example/7"
        error_message := none }

/-- A transport whose reply is a 500 from the publishing service. -/
def httpServerError : PublishData → HttpResult PublishServiceBody := fun _ =>
  .statusError 500 "upstream boom"

/-- A wordpress target with no per-platform overrides. -/
def wpTarget : Target :=
  { platform := "wordpress", post_status := none, categories := none
    tags := none, hashtags := none, location_id := none, schedule_time := none }

/-- An instagram target with no per-platform overrides. -/
def igTarget : Target :=
  { platform := "instagram", post_status := none, categories := none
    tags := none, hashtags := none, location_id := none, schedule_time := none }

/-- A facebook target: no publisher exists for it in the workflow task. -/
def fbTarget : Target :=
  { platform := "facebook", post_status := none, categories := none
    tags := none, hashtags := none, location_id := none, schedule_time := none }

/-- A per-target transport: target 1 succeeds, target 2's publishing
call returns a 500, target 3 succeeds. -/
def httpMidFailure : Nat → PublishData → HttpResult PublishServiceBody
  | 1 => httpServerError
  | _ => httpOkPublished

/-- Three-target workflow data: wordpress, wordpress, instagram. -/
def threeTargets : WorkflowData :=
  { publishing_targets := [wpTarget, wpTarget, igTarget], auto_publish := true }

/-- Witness for C4: three targets where target 2's publish fails; the
result list has length 3 and each position holds its own target's
outcome. -/
theorem C4_witness :
    threeTargets.auto_publish = true ∧
    (generate_and_publish "w1" threeTargets (.ok sampleContent) httpMidFailure
        "2026-01-01T00:00:00").result.publishingResults.length = 3 ∧
    (∀ i, i < 3 →
      (generate_and_publish "w1" threeTargets (.ok sampleContent) httpMidFailure
          "2026-01-01T00:00:00").result.publishingResults.get? i =
        (threeTargets.publishing_targets.get? i).map
          (fun t => (publish_content_sync sampleContent t (httpMidFailure i)).1)) ∧
    ((generate_and_publish "w1" threeTargets (.ok sampleContent) httpMidFailure
        "2026-01-01T00:00:00").result.publishingResults.map
      (fun r => r.success)) = [true, false, true] := by
  have h := C4_one_record_per_target_in_order "w1" threeTargets sampleContent
    httpMidFailure "2026-01-01T00:00:00" rfl
  refine ⟨rfl, h.1, h.2, ?_⟩
  rfl

/-- C3.  Whenever content generation succeeds and auto_publish is set,
the task's terminal dictionary carries the tag "completed" and the
status endpoint projects it as status published with progress 100 —
even when every per-target record in publishing_results is a failure. -/
theorem C3_completed_projects_published
    (workflow_id : String) (wd : WorkflowData) (c : Content)
    (http : Nat → PublishData → HttpResult PublishServiceBody) (now : String)
    (hauto : wd.auto_publish = true)
    (_hallfail : ∀ r ∈ (generate_and_publish workflow_id wd (.ok c) http now).result.publishingResults,
        r.success = false) :
    (generate_and_publish workflow_id wd (.ok c) http now).result.statusTag = "completed" ∧
    (get_workflow_status workflow_id
        (.success (generate_and_publish workflow_id wd (.ok c) http now).result)).status =
      .published ∧
    (get_workflow_status workflow_id
        (.success (generate_and_publish workflow_id wd (.ok c) http now).result)).progress_percentage =
      100 := by
  unfold generate_and_publish
  simp [hauto, TaskResult.statusTag, get_workflow_status]

/-- Single-target workflow data whose only target has no publisher. -/
def fbOnlyTargets : WorkflowData :=
  { publishing_targets := [fbTarget], auto_publish := true }

/-- Witness for C3: a workflow whose single target is unsupported, so
its only publishing record is a failure; the terminal tag is still
"completed" and the projection reports published at 100 percent. -/
theorem C3_witness :
    fbOnlyTargets.auto_publish = true ∧
    (∀ r ∈ (generate_and_publish "w2" fbOnlyTargets (.ok sampleContent) httpMidFailure
        "2026-01-01T00:00:00").result.publishingResults, r.success = false) ∧
    (generate_and_publish "w2" fbOnlyTargets (.ok sampleContent) httpMidFailure
        "2026-01-01T00:00:00").result.statusTag = "completed" ∧
    (get_workflow_status "w2"
        (.success (generate_and_publish "w2" fbOnlyTargets (.ok sampleContent) httpMidFailure
          "2026-01-01T00:00:00").result)).status = .published ∧
    (get_workflow_status "w2"
        (.success (generate_and_publish "w2" fbOnlyTargets (.ok sampleContent) httpMidFailure
          "2026-01-01T00:00:00").result)).progress_percentage = 100 := by
  have h := C3_completed_projects_published "w2" fbOnlyTargets sampleContent
    httpMidFailure "2026-01-01T00:00:00" rfl (by decide)
  exact ⟨rfl, by decide, h.1, h.2.1, h.2.2⟩

/-- C5.  When the content-generation collaborator signals an error — a
result carrying an error key or a falsy result — the task returns the
failed dictionary whose error message wraps the collaborator's error,
makes no publish call for any target, and attaches no publishing
results. -/
theorem C5_generation_failure_aborts_publishing
    (workflow_id : String) (wd : WorkflowData) (gen : ContentResult) (msg : String)
    (http : Nat → PublishData → HttpResult PublishServiceBody) (now : String)
    (hgen : gen = .error msg ∨ gen = .empty) :
    (generate_and_publish workflow_id wd gen http now).result =
      .failed workflow_id ("Content generation failed: " ++ collaboratorError gen) ∧
    (generate_and_publish workflow_id wd gen http now).publishCalls = 0 ∧
    (generate_and_publish workflow_id wd gen http now).result.publishingResults = [] := by
  rcases hgen with h | h <;>
    subst h <;>
    simp [generate_and_publish, collaboratorError, TaskResult.publishingResults]

/-- Witness for C5: a collaborator error "model unavailable" on a
workflow with one wordpress target. -/
theorem C5_witness :
    ((ContentResult.error "model unavailable") = ContentResult.error "model unavailable" ∨
      (ContentResult.error "model unavailable") = ContentResult.empty) ∧
    (generate_and_publish "w3" threeTargets (.error "model unavailable") httpMidFailure
        "2026-01-01T00:00:00").result =
      .failed "w3" "Content generation failed: model unavailable" ∧
    (generate_and_publish "w3" threeTargets (.error "model unavailable") httpMidFailure
        "2026-01-01T00:00:00").publishCalls = 0 := by
  have h := C5_generation_failure_aborts_publishing "w3" threeTargets
    (.error "model unavailable") "model unavailable" httpMidFailure
    "2026-01-01T00:00:00" (Or.inl rfl)
  exact ⟨Or.inl rfl, h.1, h.2.1⟩

/-- C8.  Along the sequence of backend states a normally executing
workflow passes through, the progress percentage observed through the
status query never decreases; every state before the last projects to a
non-terminal status, and the last projects to a terminal one — so once
the observed status is terminal no further progress update occurs. -/
theorem C8_progress_monotone_until_terminal
    (workflow_id : String) (wd : WorkflowData) (gen : ContentResult)
    (http : Nat → PublishData → HttpResult PublishServiceBody) (now : String) :
    List.Chain' (fun a b => a ≤ b)
      ((workflowTrace workflow_id wd gen http now).map
        (fun st => (get_workflow_status workflow_id st).progress_percentage)) ∧
    (∀ resp ∈ ((workflowTrace workflow_id wd gen http now).map
        (get_workflow_status workflow_id)).dropLast,
      isTerminal resp.status = false) ∧
    (∃ last,
      ((workflowTrace workflow_id wd gen http now).map
        (get_workflow_status workflow_id)).getLast? = some last ∧
      isTerminal last.status = true) := by
  cases gen with
  | ok c =>
    by_cases hauto : wd.auto_publish = true
    · simp [workflowTrace, generate_and_publish, hauto, get_workflow_status, isTerminal]
    · simp only [Bool.not_eq_true] at hauto
      simp [workflowTrace, generate_and_publish, hauto, get_workflow_status, isTerminal]
  | error msg =>
    simp [workflowTrace, generate_and_publish, get_workflow_status, isTerminal]
  | empty =>
    simp [workflowTrace, generate_and_publish, get_workflow_status, isTerminal]

/-- C10.  A publishing target whose platform is neither wordpress nor
instagram yields a failure record naming the unsupported platform with
zero transport invocations, and a workflow containing such targets still
terminates with the tag "completed" when generation succeeded and
auto_publish is set. -/
theorem C10_unsupported_platform_isolated
    (c : Content) (t : Target)
    (http : PublishData → HttpResult PublishServiceBody)
    (h1 : t.platform ≠ "wordpress") (h2 : t.platform ≠ "instagram") :
    publish_content_sync c t http =
      ({ platform := t.platform
         success := false
         post_id := none
         post_url := none
         error_message := some ("Unsupported platform: " ++ t.platform) }, 0) ∧
    ∀ (workflow_id : String) (wd : WorkflowData)
      (httpN : Nat → PublishData → HttpResult PublishServiceBody) (now : String),
      wd.auto_publish = true →
      (generate_and_publish workflow_id wd (.ok c) httpN now).result.statusTag =
        "completed" := by
  constructor
  · unfold publish_content_sync buildPublishData
    simp [h1, h2]
  · intro workflow_id wd httpN now hauto
    unfold generate_and_publish
    simp [hauto, TaskResult.statusTag]

/-- Witness for C10: the facebook target produces the unsupported-
platform failure record with zero transport calls, and the workflow
around it completes. -/
theorem C10_witness :
    fbTarget.platform ≠ "wordpress" ∧
    fbTarget.platform ≠ "instagram" ∧
    publish_content_sync sampleContent fbTarget httpOkPublished =
      ({ platform := "facebook"
         success := false
         post_id := none
         post_url := none
         error_message := some "Unsupported platform: facebook" }, 0) ∧
    (generate_and_publish "w4" fbOnlyTargets (.ok sampleContent) httpMidFailure
        "2026-01-01T00:00:00").result.statusTag = "completed" := by
  have h := C10_unsupported_platform_isolated sampleContent fbTarget httpOkPublished
    (by decide) (by decide)
  exact ⟨by decide, by decide, h.1,
    h.2 "w4" fbOnlyTargets httpMidFailure "2026-01-01T00:00:00" rfl⟩

/-! ## WordPress publisher (`app/publishers/wordpress.py`)

The transport is a record of per-endpoint oracles; every helper returns
the list of HTTP calls it issued, in order, so that "no network call" is
the provable statement "the call log is empty". -/

/-- Result of one publish method: a raised exception (the payload guard
raises a ValueError before the try block) or a returned response. -/
inductive PublishAttempt where
  | raised (msg : String)
  | resp (r : PublicationResponse)
deriving DecidableEq

/-- One HTTP call issued by the WordPress publisher. -/
inductive WpCall where
  | getImage (url : String)
  | postMedia
  | searchCategories (name : String)
  | createCategory (name : String)
  | searchTags (name : String)
  | createTag (name : String)
  | createPost
deriving DecidableEq

/-- Reply to a taxonomy create POST: a status code with the created id
read through the JSON body (`['id']` missing raises), or a raised
transport exception. -/
inductive TermCreateReply where
  | ok (code : Nat) (id : Option Nat)
  | exn (msg : String)
deriving DecidableEq

/-- The JSON body of a created post, read via `.get`. -/
structure WpPostBody where
  id : Option Nat
  link : Option String
deriving DecidableEq

/-- The post body assembled at step 4 of the WordPress protocol
(optional keys only set when truthy in the source). -/
structure WpPayloadFull where
  title : String
  content : String
  status : String
  excerpt : String
  slug : Option String
  featured_media : Option Nat
  categories : Option (List Nat)
  tags : Option (List Nat)
deriving DecidableEq

/-- Per-endpoint transport oracles of the WordPress publisher.  The
taxonomy search endpoint issues no raise_for_status in the source, so
only a parsed id list or a raised exception is observable there. -/
structure WpNet where
  getImage : String → HttpResult Unit
  postMedia : HttpResult (Option Nat)
  searchCategory : String → Except String (List Nat)
  createCategory : String → TermCreateReply
  searchTag : String → Except String (List Nat)
  createTag : String → TermCreateReply
  createPost : WpPayloadFull → HttpResult WpPostBody

/-- WordPressPublisher._upload_image: download then media upload; any
failure at either step is swallowed and yields no media id. -/
def wpUploadImage (net : WpNet) (url : String) : Option Nat × List WpCall :=
  match net.getImage url with
  | .ok _ =>
    match net.postMedia with
    | .ok id => (id, [.getImage url, .postMedia])
    | .statusError _ _ => (none, [.getImage url, .postMedia])
    | .exn _ => (none, [.getImage url, .postMedia])
  | .statusError _ _ => (none, [.getImage url])
  | .exn _ => (none, [.getImage url])

/-- The shared body of `_get_or_create_categories` and
`_get_or_create_tags`: search each name; reuse the first found id;
otherwise create, keeping the new id only on a 201 with a parsable id;
per-name failures are logged and the name skipped. -/
def wpGetOrCreateTerms (search : String → Except String (List Nat))
    (create : String → TermCreateReply)
    (searchCall createCall : String → WpCall) :
    List String → List Nat × List WpCall
  | [] => ([], [])
  | name :: rest =>
    let (ids, calls) :=
      match search name with
      | .error _ => ([], [searchCall name])
      | .ok (found :: _) => ([found], [searchCall name])
      | .ok [] =>
        match create name with
        | .exn _ => ([], [searchCall name, createCall name])
        | .ok code id =>
          if code = 201 then
            match id with
            | some i => ([i], [searchCall name, createCall name])
            | none => ([], [searchCall name, createCall name])
          else ([], [searchCall name, createCall name])
    let (restIds, restCalls) := wpGetOrCreateTerms search create searchCall createCall rest
    (ids ++ restIds, calls ++ restCalls)

/-- WordPressPublisher.publish (wordpress.py lines 62-159).  A missing
wordpress_data payload raises before the try block, before any call;
otherwise: optional image upload (non-fatal), optional taxonomy
resolution (non-fatal per term), then post creation whose HTTP error or
transport exception is fatal to the attempt and converted to a failed
response. -/
def wordpressPublish (net : WpNet) (publication_id : String)
    (request : PublicationRequest) : PublishAttempt × List WpCall :=
  match request.wordpress_data with
  | none => (.raised "WordPress data is required for WordPress publishing", [])
  | some wp =>
    let (featured_media_id, imageCalls) :=
      match wp.featured_image_url with
      | some url => wpUploadImage net url
      | none => (none, [])
    let (category_ids, catCalls) :=
      if wp.categories.isEmpty then ([], [])
      else wpGetOrCreateTerms net.searchCategory net.createCategory
        .searchCategories .createCategory wp.categories
    let (tag_ids, tagCalls) :=
      if wp.tags.isEmpty then ([], [])
      else wpGetOrCreateTerms net.searchTag net.createTag
        .searchTags .createTag wp.tags
    let payload : WpPayloadFull :=
      { title := wp.title
        content := wp.content
        status := wp.status
        excerpt := wp.excerpt.getD ""
        slug := if pyTruthyStr wp.slug then wp.slug else none
        featured_media :=
          match featured_media_id with
          | some i => if i = 0 then none else some i
          | none => none
        categories := if category_ids.isEmpty then none else some category_ids
        tags := if tag_ids.isEmpty then none else some tag_ids }
    let calls := imageCalls ++ catCalls ++ tagCalls ++ [.createPost]
    match net.createPost payload with
    | .ok body =>
      (.resp (createResponse .wordpress publication_id .published
        (some (match body.id with
          | some i => toString i
          | none => "None"))
        body.link none), calls)
    | .statusError code text =>
      (.resp (createResponse .wordpress publication_id .failed none none
        (some ("WordPress API error: " ++ toString code ++ " - " ++ text))), calls)
    | .exn msg =>
      (.resp (createResponse .wordpress publication_id .failed none none
        (some ("Unexpected error: " ++ msg))), calls)

/-! ## Instagram publisher (`app/publishers/instagram.py`) -/

/-- One HTTP call issued by the Instagram publisher. -/
inductive IgCall where
  | createContainer (image_url caption : String) (location_id : Option String)
  | publishContainer (creation_id : String)
  | getShortcode (media_id : String)
deriving DecidableEq

/-- Per-endpoint transport oracles of the Instagram publisher; ids are
read through `.get('id')` so they may be absent. -/
structure IgNet where
  createMedia : HttpResult (Option String)
  mediaPublish : String → HttpResult (Option String)
  shortcode : String → HttpResult (Option String)

/-- Python truthiness applied to an optional id (`if not container_id`):
an absent or empty id counts as missing. -/
def truthyId : Option String → Option String
  | none => none
  | some s => if s.isEmpty then none else some s

/-- InstagramPublisher.publish (instagram.py lines 58-116).  A missing
instagram_data payload raises before the try block, before any call;
otherwise: container creation (fatal when no id), a fixed 3-second grace
sleep, container publish (fatal when no id), then a non-fatal shortcode
lookup falling back to the media id.  Returns the attempt outcome, the
calls issued and the sleeps performed. -/
def instagramPublish (net : IgNet) (publication_id : String)
    (request : PublicationRequest) : PublishAttempt × List IgCall × List Nat :=
  match request.instagram_data with
  | none => (.raised "Instagram data is required for Instagram publishing", [], [])
  | some ig =>
    let c1 : IgCall := .createContainer ig.image_url ig.full_caption
      (if pyTruthyStr ig.location_id then ig.location_id else none)
    let container_id :=
      match net.createMedia with
      | .ok id => truthyId id
      | .statusError _ _ => none
      | .exn _ => none
    match container_id with
    | none =>
      (.resp (createResponse .instagram publication_id .failed none none
        (some "Instagram publishing error: Failed to create media container")),
        [c1], [])
    | some cid =>
      let media_id :=
        match net.mediaPublish cid with
        | .ok id => truthyId id
        | .statusError _ _ => none
        | .exn _ => none
      match media_id with
      | none =>
        (.resp (createResponse .instagram publication_id .failed none none
          (some "Instagram publishing error: Failed to publish media container")),
          [c1, .publishContainer cid], [3])
      | some mid =>
        let code :=
          match net.shortcode mid with
          | .ok (some sc) => sc
          | .ok none => mid
          | .statusError _ _ => mid
          | .exn _ => mid
        (.resp (createResponse .instagram publication_id .published (some mid)
          (some ("https://www.instagram.com/p/" ++ code)) none),
          [c1, .publishContainer cid, .getShortcode mid], [3])

/-- C6.  A PublicationRequest dispatched to the WordPress publisher with
wordpress_data absent, or to the Instagram publisher with instagram_data
absent, makes publish raise its validation error before issuing any
transport call: the call log is empty. -/
theorem C6_missing_payload_no_network
    (reqW reqI : PublicationRequest) (netW : WpNet) (netI : IgNet)
    (pidW pidI : String)
    (hW : reqW.wordpress_data = none) (hI : reqI.instagram_data = none) :
    wordpressPublish netW pidW reqW =
      (.raised "WordPress data is required for WordPress publishing", []) ∧
    instagramPublish netI pidI reqI =
      (.raised "Instagram data is required for Instagram publishing", [], []) := by
  constructor
  · unfold wordpressPublish
    rw [hW]
  · unfold instagramPublish
    rw [hI]

/-- A wordpress-platform request with no payload at all. -/
def emptyWpRequest : PublicationRequest :=
  { platform := .wordpress, wordpress_data := none, instagram_data := none
    facebook_data := none, x_data := none }

/-- An instagram-platform request with no payload at all. -/
def emptyIgRequest : PublicationRequest :=
  { platform := .instagram, wordpress_data := none, instagram_data := none
    facebook_data := none, x_data := none }

/-- A transport that would answer every WordPress call successfully;
the point of the witness is that it is never consulted. -/
def wpNetAllOk : WpNet :=
  { getImage := fun _ => .ok ()
    postMedia := .ok (some 11)
    searchCategory := fun _ => .ok [3]
    createCategory := fun _ => .ok 201 (some 4)
    searchTag := fun _ => .ok [5]
    createTag := fun _ => .ok 201 (some 6)
    createPost := fun _ => .ok { id := some 99, link := some "https://site.example/99" } }

/-- A transport that would answer every Instagram call successfully. -/
def igNetAllOk : IgNet :=
  { createMedia := .ok (some "c1")
    mediaPublish := fun _ => .ok (some "m1")
    shortcode := fun _ => .ok (some "SC1") }

/-- Witness for C6 at the two concrete payload-less requests. -/
theorem C6_witness :
    emptyWpRequest.wordpress_data = none ∧
    emptyIgRequest.instagram_data = none ∧
    wordpressPublish wpNetAllOk "pub-w" emptyWpRequest =
      (.raised "WordPress data is required for WordPress publishing", []) ∧
    instagramPublish igNetAllOk "pub-i" emptyIgRequest =
      (.raised "Instagram data is required for Instagram publishing", [], []) := by
  have h := C6_missing_payload_no_network emptyWpRequest emptyIgRequest
    wpNetAllOk igNetAllOk "pub-w" "pub-i" rfl rfl
  exact ⟨rfl, rfl, h.1, h.2⟩

/-! ## Bulk publishing endpoint (`app/api/publish.py` lines 82-152)

Whether a platform has configuration depends on deployment settings and
is passed as a predicate; the factory registry is static in the source
(`PublisherFactory._publishers`): only WordPress and Instagram have a
registered constructor.  The behaviour of `create_publisher` plus
`retry_publish` for the i-th publication is an oracle: either something
in the try block raised (for example a ValueError from the publisher
constructor) or `retry_publish` returned a response. -/

/-- The static factory registry of `PublisherFactory`. -/
def factoryRegistered : PlatformType → Bool
  | .wordpress => true
  | .instagram => true
  | .facebook => false
  | .x => false
  | .linkedin => false

/-- Observable behaviour of one non-skipped bulk iteration. -/
inductive BulkItemOutcome where
  | raisedInTry (msg : String)
  | response (r : PublicationResponse)
deriving DecidableEq

/-- The running state of the bulk loop and the aggregate response. -/
structure BulkOutcome where
  total : Nat
  successful : Nat
  failed : Nat
  results : List PublicationResponse
deriving DecidableEq

/-- The loop of `bulk_publish`: an unconfigured platform or one with no
registered publisher is skipped with `continue` — nothing is appended
and no counter moves; a raised exception counts as failed with no
appended result; a returned response is appended and counted by its
status, and `stop_on_first_error` breaks after the first non-published
response or exception.  `idx` is the position in the submitted list. -/
def bulkLoop (configured : PlatformType → Bool)
    (outcome : Nat → BulkItemOutcome) (stopOnFirstError : Bool) :
    List PublicationRequest → Nat → Nat × Nat × List PublicationResponse
  | [], _ => (0, 0, [])
  | p :: rest, idx =>
    if configured p.platform = false then
      bulkLoop configured outcome stopOnFirstError rest (idx + 1)
    else if factoryRegistered p.platform = false then
      bulkLoop configured outcome stopOnFirstError rest (idx + 1)
    else
      match outcome idx with
      | .raisedInTry _ =>
        if stopOnFirstError then (0, 1, [])
        else
          let (s, f, rs) := bulkLoop configured outcome stopOnFirstError rest (idx + 1)
          (s, f + 1, rs)
      | .response r =>
        if r.status = .published then
          let (s, f, rs) := bulkLoop configured outcome stopOnFirstError rest (idx + 1)
          (s + 1, f, r :: rs)
        else if stopOnFirstError then (0, 1, [r])
        else
          let (s, f, rs) := bulkLoop configured outcome stopOnFirstError rest (idx + 1)
          (s, f + 1, r :: rs)

/-- The endpoint `bulk_publish` (publish.py lines 89-152): runs the loop
and reports total = number of submitted publications alongside the
accumulated counters and results. -/
def bulk_publish (configured : PlatformType → Bool)
    (outcome : Nat → BulkItemOutcome) (publications : List PublicationRequest)
    (stopOnFirstError : Bool) : BulkOutcome :=
  let (s, f, rs) := bulkLoop configured outcome stopOnFirstError publications 0
  { total := publications.length, successful := s, failed := f, results := rs }

/-- A linkedin request: the factory has no publisher registered for it. -/
def linkedinRequest : PublicationRequest :=
  { platform := .linkedin, wordpress_data := none, instagram_data := none
    facebook_data := none, x_data := none }

/-- C9.  A publication whose platform is not configured, or for which no
publisher is registered, is silently skipped by the bulk loop: the loop
state after it equals the state of processing the remaining list alone
(no result appended, neither counter incremented).  Consequently on some
inputs successful + failed stays strictly below total and the results
list is strictly shorter than the submitted list — shown at a bulk
request consisting of one linkedin publication with every platform
configured. -/
theorem C9_unconfigured_platform_silently_skipped
    (configured : PlatformType → Bool) (outcome : Nat → BulkItemOutcome)
    (stopOnFirstError : Bool) (p : PublicationRequest)
    (rest : List PublicationRequest) (idx : Nat)
    (hskip : configured p.platform = false ∨ factoryRegistered p.platform = false) :
    bulkLoop configured outcome stopOnFirstError (p :: rest) idx =
      bulkLoop configured outcome stopOnFirstError rest (idx + 1) ∧
    ((bulk_publish (fun _ => true) outcome [linkedinRequest] stopOnFirstError).successful +
        (bulk_publish (fun _ => true) outcome [linkedinRequest] stopOnFirstError).failed <
      (bulk_publish (fun _ => true) outcome [linkedinRequest] stopOnFirstError).total ∧
      (bulk_publish (fun _ => true) outcome [linkedinRequest] stopOnFirstError).results.length <
        [linkedinRequest].length) := by
  constructor
  · conv_lhs => rw [bulkLoop]
    rcases hskip with h | h
    · simp [h]
    · simp [h]
  · simp [bulk_publish, bulkLoop, linkedinRequest, factoryRegistered]

/-- Witness for C9: a two-element bulk request (linkedin then wordpress,
both "configured", wordpress publishing successfully): the skip equation
holds at its head and the aggregate counts under-count the total. -/
theorem C9_witness :
    ((fun _ => true : PlatformType → Bool) linkedinRequest.platform = false ∨
      factoryRegistered linkedinRequest.platform = false) ∧
    bulkLoop (fun _ => true)
        (fun _ => .response (createResponse .wordpress "b1" .published none none none))
        false [linkedinRequest, emptyWpRequest] 0 =
      bulkLoop (fun _ => true)
        (fun _ => .response (createResponse .wordpress "b1" .published none none none))
        false [emptyWpRequest] 1 ∧
    (bulk_publish (fun _ => true)
        (fun _ => .response (createResponse .wordpress "b1" .published none none none))
        [linkedinRequest] false).successful +
      (bulk_publish (fun _ => true)
        (fun _ => .response (createResponse .wordpress "b1" .published none none none))
        [linkedinRequest] false).failed <
      (bulk_publish (fun _ => true)
        (fun _ => .response (createResponse .wordpress "b1" .published none none none))
        [linkedinRequest] false).total := by
  have h := C9_unconfigured_platform_silently_skipped (fun _ => true)
    (fun _ => .response (createResponse .wordpress "b1" .published none none none))
    false linkedinRequest [emptyWpRequest] 0 (Or.inr rfl)
  exact ⟨Or.inr rfl, h.1, h.2.1⟩

end AutoPublisherAI
